import Mathlib

/-!
Verification of the PyVenture repository (an educational grid game driven by a
textual command console). The development shallowly embeds the Python modules
`settings.py`, `sprites.py`, `game.py` and `ui.py`: Python `str` values are
Lean `String`s manipulated character-wise (mirroring Python string methods),
Python `int`s are `Int`, Python `float` pixel coordinates are `ℚ` (every value
the embedded operations assign to them is exact), and exceptions become an
explicit error type. Rendering, fonts, particles and other purely visual
state are outside the embedded fragment, as they are outside the spec's scope.
-/

/-! ## Python string primitives

Python strings are sequences of characters; these helpers mirror the `str`
methods the embedded code uses (`strip`, `lower`, `startswith`, `endswith`,
slicing, `replace`, `in`) on `String.data`. -/

/-- Python `str.replace` worker over character lists: leftmost, non-overlapping,
replaces every occurrence. The fuel argument starts at the list length, which
bounds the number of steps for a non-empty pattern (the embedded code only
replaces the non-empty patterns `"hero."` and `"()"`). -/
def replaceFuel (pat rep : List Char) : Nat → List Char → List Char
  | 0, s => s
  | _ + 1, [] => []
  | fuel + 1, c :: cs =>
    if pat ≠ [] ∧ pat.isPrefixOf (c :: cs) then
      rep ++ replaceFuel pat rep fuel (List.drop (pat.length - 1) cs)
    else
      c :: replaceFuel pat rep fuel cs

/-- Python `s.replace(pat, rep)` (for non-empty `pat`). -/
def pyReplace (s pat rep : String) : String :=
  ⟨replaceFuel pat.data rep.data s.data.length s.data⟩

/-- ASCII lowercasing of one character, as Python `str.lower` does on the
ASCII identifiers and keywords the interpreter compares. -/
def lowerChar (c : Char) : Char :=
  if 65 ≤ c.toNat ∧ c.toNat ≤ 90 then Char.ofNat (c.toNat + 32) else c

/-- Python `s.lower()`. -/
def pyLower (s : String) : String := ⟨s.data.map lowerChar⟩

/-- Python whitespace for `str.strip()`: space, tab, newline, carriage return,
vertical tab, form feed. -/
def isPySpace (c : Char) : Bool :=
  c == ' ' || c == '\t' || c == '\n' || c == '\r' || c == Char.ofNat 11 || c == Char.ofNat 12

/-- Python `s.strip()`. -/
def pyStrip (s : String) : String :=
  ⟨((s.data.dropWhile isPySpace).reverse.dropWhile isPySpace).reverse⟩

/-- Python `s.startswith(pre)`. -/
def pyStartsWith (s pre : String) : Bool := pre.data.isPrefixOf s.data

/-- Python `s.endswith(suf)`. -/
def pyEndsWith (s suf : String) : Bool := suf.data.isSuffixOf s.data

/-- Python `s[n:]`. -/
def pyDrop (s : String) (n : Nat) : String := ⟨s.data.drop n⟩

/-- Python `s[:-n]` (for `n ≤ len(s)`; in the embedded code the slice `[1:-1]`
is only taken on strings of length at least 1, as in `args_str[1:-1]`). -/
def pyDropRight (s : String) (n : Nat) : String := ⟨s.data.take (s.data.length - n)⟩

/-- Python `not s` on a string: truthiness of `str`. -/
def pyIsEmpty (s : String) : Bool := s.data.isEmpty

/-- A regex `\w` character (ASCII view, which covers every command the
theorems quantify over and every key of the misspelling table). -/
def isWordChar (c : Char) : Bool := c.isAlphanum || c == '_'

/-- The longest `\w*` prefix. -/
def pyTakeWhileWord (s : String) : String := ⟨s.data.takeWhile isWordChar⟩

/-- Python `c in s` for a single character. -/
def pyContainsChar (s : String) (c : Char) : Bool := s.data.contains c

/-! ## settings.py -/

def TILE_SIZE : ℚ := 64
def GRID_COLS : Int := 12
def GRID_ROWS : Int := 9
def GAME_AREA_X : ℚ := 40
def GAME_AREA_Y : ℚ := 40
def PLAYER_START_COL : Int := 5
def PLAYER_START_ROW : Int := 4

def VALID_HERO_METHODS : List String :=
  ["move_right", "move_left", "move_up", "move_down",
   "jump", "attack", "defend", "say", "spin", "dance", "collect"]

def METHOD_SUGGESTIONS : List (String × String) :=
  [("moveright", "move_right"),
   ("moveleft", "move_left"),
   ("moveup", "move_up"),
   ("movedown", "move_down"),
   ("move_rigth", "move_right"),
   ("move_rigt", "move_right"),
   ("move_leftt", "move_left"),
   ("move_u", "move_up"),
   ("move_d", "move_down"),
   ("right", "move_right"),
   ("left", "move_left"),
   ("up", "move_up"),
   ("down", "move_down"),
   ("spinn", "spin"),
   ("dans", "dance"),
   ("dansce", "dance")]

/-! ## sprites.py: Direction, Obstacle, Player -/

inductive Direction
  | NONE
  | UP
  | DOWN
  | LEFT
  | RIGHT
deriving DecidableEq

structure Obstacle where
  grid_col : Int
  grid_row : Int
  obstacle_type : String
deriving DecidableEq

/-- The `Player` fields the embedded (non-rendering) methods read or write.
Pixel coordinates are `ℚ`: every assignment the embedded methods make to them
is an exact grid-to-pixel value. Purely visual fields (sprite image, colors,
pulse timers) are not part of the embedded fragment. -/
structure Player where
  grid_col : Int
  grid_row : Int
  x : ℚ
  y : ℚ
  target_x : ℚ
  target_y : ℚ
  is_moving : Bool
  direction : Direction
  is_spinning : Bool
  spin_timer : ℚ
  is_dancing : Bool
  dance_timer : ℚ
  dance_offset : ℚ
  obstacles : List Obstacle
  eye_direction : Direction

/-- `Player._grid_to_pixel_x`: `GAME_AREA_X + col * TILE_SIZE + TILE_SIZE // 2`. -/
def grid_to_pixel_x (col : Int) : ℚ := GAME_AREA_X + (col : ℚ) * TILE_SIZE + 32

/-- `Player._grid_to_pixel_y`. -/
def grid_to_pixel_y (row : Int) : ℚ := GAME_AREA_Y + (row : ℚ) * TILE_SIZE + 32

/-- `Player.__init__` at a grid cell with an obstacle list. -/
def Player.init (col row : Int) (obstacles : List Obstacle) : Player :=
  { grid_col := col
    grid_row := row
    x := grid_to_pixel_x col
    y := grid_to_pixel_y row
    target_x := grid_to_pixel_x col
    target_y := grid_to_pixel_y row
    is_moving := false
    direction := .NONE
    is_spinning := false
    spin_timer := 0
    is_dancing := false
    dance_timer := 0
    dance_offset := 0
    obstacles := obstacles
    eye_direction := .NONE }

/-- `Player._is_blocked`: any obstacle occupies the cell. -/
def Player.is_blocked (p : Player) (col row : Int) : Bool :=
  p.obstacles.any (fun o => o.grid_col == col && o.grid_row == row)

/-- The boundary test of `Player._try_move`: `0 <= new_col < GRID_COLS and
0 <= new_row < GRID_ROWS`. -/
def within_bounds (col row : Int) : Bool :=
  decide (0 ≤ col) && decide (col < GRID_COLS) && decide (0 ≤ row) && decide (row < GRID_ROWS)

/-- `Player._try_move`: returns the updated player and `True` iff movement
started. On success the grid cell updates immediately and the pixel target is
set; the continuous position `x, y` is untouched. -/
def Player.try_move (p : Player) (dx dy : Int) (direction : Direction) : Player × Bool :=
  if p.is_moving || p.is_spinning || p.is_dancing then (p, false)
  else
    let new_col := p.grid_col + dx
    let new_row := p.grid_row + dy
    if !within_bounds new_col new_row then (p, false)
    else if p.is_blocked new_col new_row then (p, false)
    else
      ({ p with
          grid_col := new_col
          grid_row := new_row
          target_x := grid_to_pixel_x new_col
          target_y := grid_to_pixel_y new_row
          direction := direction
          eye_direction := direction
          is_moving := true },
       true)

def Player.move_right (p : Player) : Player × Bool := p.try_move 1 0 .RIGHT

def Player.move_left (p : Player) : Player × Bool := p.try_move (-1) 0 .LEFT

def Player.move_up (p : Player) : Player × Bool := p.try_move 0 (-1) .UP

def Player.move_down (p : Player) : Player × Bool := p.try_move 0 1 .DOWN

/-- `Player.spin`. -/
def Player.spin (p : Player) : Player × Bool :=
  if p.is_moving || p.is_spinning || p.is_dancing then (p, false)
  else ({ p with is_spinning := true, spin_timer := 0 }, true)

/-- `Player.dance`. -/
def Player.dance (p : Player) : Player × Bool :=
  if p.is_moving || p.is_spinning || p.is_dancing then (p, false)
  else ({ p with is_dancing := true, dance_timer := 0 }, true)

/-- `Player.reset_position`. -/
def Player.reset_position (p : Player) : Player :=
  { p with
      grid_col := PLAYER_START_COL
      grid_row := PLAYER_START_ROW
      x := grid_to_pixel_x PLAYER_START_COL
      y := grid_to_pixel_y PLAYER_START_ROW
      target_x := grid_to_pixel_x PLAYER_START_COL
      target_y := grid_to_pixel_y PLAYER_START_ROW
      is_moving := false
      is_spinning := false
      is_dancing := false
      direction := .NONE
      dance_offset := 0 }

/-! ## sprites.py: Hero (console API wrapper)

Each wrapper returns the possibly-updated player and the message string the
Python method returns (which it also stores in `_last_command_result`). The
arrow and emoji characters are copied byte-for-byte from the source file. -/

def Hero.move_right (p : Player) : Player × String :=
  let r := p.move_right
  if r.2 then (r.1, "Moving right! â†’")
  else if r.1.is_moving then (r.1, "Wait! Still moving...")
  else if r.1.is_spinning || r.1.is_dancing then (r.1, "Wait! Hero is busy performing...")
  else (r.1, "Can't move right - blocked!")

def Hero.move_left (p : Player) : Player × String :=
  let r := p.move_left
  if r.2 then (r.1, "Moving left! â†")
  else if r.1.is_moving then (r.1, "Wait! Still moving...")
  else if r.1.is_spinning || r.1.is_dancing then (r.1, "Wait! Hero is busy performing...")
  else (r.1, "Can't move left - blocked!")

def Hero.move_up (p : Player) : Player × String :=
  let r := p.move_up
  if r.2 then (r.1, "Moving up! â†‘")
  else if r.1.is_moving then (r.1, "Wait! Still moving...")
  else if r.1.is_spinning || r.1.is_dancing then (r.1, "Wait! Hero is busy performing...")
  else (r.1, "Can't move up - blocked!")

def Hero.move_down (p : Player) : Player × String :=
  let r := p.move_down
  if r.2 then (r.1, "Moving down! â†“")
  else if r.1.is_moving then (r.1, "Wait! Still moving...")
  else if r.1.is_spinning || r.1.is_dancing then (r.1, "Wait! Hero is busy performing...")
  else (r.1, "Can't move down - blocked!")

/-- Values the interpreter can pass as the single argument of a hero method:
quoted string literals, and what the evaluation oracle yields for bare
arguments (numbers, booleans, strings). -/
inductive PyObj
  | str (s : String)
  | int (n : Int)
  | bool (b : Bool)
deriving DecidableEq

/-- Python `f"...{v}..."` conversion of an argument value. -/
def py_str : PyObj → String
  | .str s => s
  | .int n => toString n
  | .bool b => if b then "True" else "False"

/-- `Hero.say(message="Hello!")`. -/
def Hero.say (p : Player) (message : PyObj) : Player × String :=
  (p, "Hero says: \"" ++ py_str message ++ "\"")

def Hero.spin (p : Player) : Player × String :=
  let r := p.spin
  if r.2 then (r.1, "Wheeeee! ðŸŒ€") else (r.1, "Can't spin right now!")

def Hero.dance (p : Player) : Player × String :=
  let r := p.dance
  if r.2 then (r.1, "ðŸ’ƒ Dancing! ðŸ•º") else (r.1, "Can't dance right now!")

def Hero.jump (p : Player) : Player × String :=
  (p, "Jump! ðŸ¦˜ (Visual coming soon...)")

def Hero.attack (p : Player) : Player × String :=
  (p, "Attack! âš”ï¸ (Combat coming soon...)")

def Hero.defend (p : Player) : Player × String :=
  (p, "Defend! ðŸ›¡ï¸ (Combat coming soon...)")

def Hero.collect (p : Player) : Player × String :=
  (p, "Looking for items... (Use auto-collect by walking!)")

/-! ## game.py and ui.py: the command interpreter

`Game._handle_command` strips the input, short-circuits the reserved keywords,
runs `Game._execute_hero_command`, and turns each raised exception class into
one call of `Console.add_educational_error` with a fixed error type. The
educational-error routine (ui.py) first consults the misspelling table on the
stripped command and only then branches on the error type. -/

/-- The exception classes `_handle_command` distinguishes. `typeError` stands
for the `Exception` branch: the only other exception the embedded fragment can
raise is `TypeError` from calling a no-argument hero method with an argument. -/
inductive PyError
  | syntaxError
  | nameError
  | attributeError
  | typeError
deriving DecidableEq

/-- Which educational branch `Console.add_educational_error` takes. -/
inductive EduHint
  | didYouMean (suggestion : String)
  | syntaxHint
  | unknownMethodHint
  | nameHint
  | genericHint
deriving DecidableEq

/-- ui.py: `command.replace("hero.", "").replace("()", "").strip()`. -/
def strip_cmd (command : String) : String :=
  pyStrip (pyReplace (pyReplace command "hero." "") "()" "")

/-- Lookup in the `METHOD_SUGGESTIONS` dict (its keys are distinct). -/
def lookup_suggestion (s : String) : Option String :=
  match METHOD_SUGGESTIONS.find? (fun kv => kv.1 == s) with
  | some kv => some kv.2
  | none => none

/-- `Console.add_educational_error`, reduced to the branch it takes: the typo
table is consulted first, the error type only afterwards. -/
def edu_hint (command : String) (error_type : String) : EduHint :=
  match lookup_suggestion (strip_cmd command) with
  | some sug => .didYouMean sug
  | none =>
    if error_type = "syntax" then .syntaxHint
    else if error_type = "unknown_method" then .unknownMethodHint
    else if error_type = "name" then .nameHint
    else .genericHint

/-- The regex `^hero\.(\w+)\((.*)\)$` of `_execute_hero_command`, unfolded:
a maximal non-empty `\w+` run after `hero.`, an immediate `(`, a final `)`,
and the (possibly bracketed) middle as the argument text, which `.` forbids
to contain a newline. Backtracking cannot help the greedy `\w+`: any shorter
match leaves a word character where `\(` must match. -/
def match_hero_call (command : String) : Option (String × String) :=
  if pyStartsWith command "hero." then
    let rest := pyDrop command 5
    let method := pyTakeWhileWord rest
    let after := pyDrop rest method.data.length
    let args := pyDropRight (pyDrop after 1) 1
    if method.data.length > 0 && pyStartsWith after "(" && pyEndsWith after ")" &&
        !pyContainsChar args '\n' then
      some (method, args)
    else
      none
  else none

/-- `valid_methods = VALID_HERO_METHODS + ['spin', 'dance', 'collect']`. -/
def valid_methods_extended : List String :=
  VALID_HERO_METHODS ++ ["spin", "dance", "collect"]

/-- `getattr(self.hero, m)()`: dispatch of a zero-argument call. Every name in
the whitelist is an attribute of `Hero`, so the `hasattr` test never fires. -/
def Hero.call0 (p : Player) : String → Except PyError (Player × String)
  | "move_right" => .ok (Hero.move_right p)
  | "move_left" => .ok (Hero.move_left p)
  | "move_up" => .ok (Hero.move_up p)
  | "move_down" => .ok (Hero.move_down p)
  | "say" => .ok (Hero.say p (.str "Hello!"))
  | "spin" => .ok (Hero.spin p)
  | "dance" => .ok (Hero.dance p)
  | "jump" => .ok (Hero.jump p)
  | "attack" => .ok (Hero.attack p)
  | "defend" => .ok (Hero.defend p)
  | "collect" => .ok (Hero.collect p)
  | _ => .error .attributeError

/-- `getattr(self.hero, m)(arg)`: only `say` accepts an argument; every other
hero method raises `TypeError` when called with one. -/
def Hero.call1 (p : Player) (m : String) (arg : PyObj) : Except PyError (Player × String) :=
  if m = "say" then .ok (Hero.say p arg) else .error .typeError

/-- `Game._execute_hero_command`. The parameter `ev` is the Python `eval`
builtin the bare-argument branch calls: `ev a = some v` models `eval(a)`
returning `v`, `ev a = none` models `eval(a)` raising. The surrounding
`try/except` also swallows errors of the `method(arg)` call itself. -/
def execute_hero_command (ev : String → Option PyObj) (p : Player) (command : String) :
    Except PyError (Player × Option String) :=
  if pyIsEmpty command then .ok (p, none)
  else if !pyStartsWith command "hero." then .error .nameError
  else
    match match_hero_call command with
    | none => .error .syntaxError
    | some m =>
      let method_name := m.1
      let args_str := pyStrip m.2
      if !valid_methods_extended.contains method_name then .error .attributeError
      else if pyIsEmpty args_str then
        match Hero.call0 p method_name with
        | .ok r => .ok (r.1, some r.2)
        | .error e => .error e
      else if pyStartsWith args_str "\"" && pyEndsWith args_str "\"" then
        match Hero.call1 p method_name (.str (pyDropRight (pyDrop args_str 1) 1)) with
        | .ok r => .ok (r.1, some r.2)
        | .error e => .error e
      else if pyStartsWith args_str "'" && pyEndsWith args_str "'" then
        match Hero.call1 p method_name (.str (pyDropRight (pyDrop args_str 1) 1)) with
        | .ok r => .ok (r.1, some r.2)
        | .error e => .error e
      else
        match ev args_str with
        | some arg =>
          match Hero.call1 p method_name arg with
          | .ok r => .ok (r.1, some r.2)
          | .error _ => .error .syntaxError
        | none => .error .syntaxError

/-- How `_handle_command` classifies each exception class for
`add_educational_error`. -/
def err_type : PyError → String
  | .syntaxError => "syntax"
  | .nameError => "name"
  | .attributeError => "unknown_method"
  | .typeError => "unknown"

/-- The outcome `_handle_command` produces for one submitted line. -/
inductive CmdOutcome
  | noop
  | helpShown
  | cleared
  | hintShown
  | success (message : String)
  | silent
  | eduError (error_type : String) (hint : EduHint)
deriving DecidableEq

/-- `Game._handle_command` (the command-interpretation part; the
`commands_executed` counter lives on the session state below). -/
def submit_command (ev : String → Option PyObj) (p : Player) (raw : String) :
    Player × CmdOutcome :=
  let command := pyStrip raw
  if pyIsEmpty command then (p, .noop)
  else if pyLower command = "help" then (p, .helpShown)
  else if pyLower command = "clear" then (p, .cleared)
  else if pyLower command = "hint" then (p, .hintShown)
  else
    match execute_hero_command ev p command with
    | .ok (p2, some result) => (p2, .success result)
    | .ok (p2, none) => (p2, .silent)
    | .error e => (p, .eduError (err_type e) (edu_hint command (err_type e)))

/-! ## game.py: session state (collectibles, challenges, score, reset) -/

/-- The `Collectible` fields the session logic reads or writes. -/
structure Collectible where
  grid_col : Int
  grid_row : Int
  gem_type : String
  value : Int
  collected : Bool
deriving DecidableEq

/-- `Collectible.GEM_VALUES.get(gem_type, 10)`. -/
def gem_value (gem_type : String) : Int :=
  if gem_type = "ruby" then 10
  else if gem_type = "emerald" then 15
  else if gem_type = "sapphire" then 20
  else if gem_type = "gold" then 25
  else if gem_type = "diamond" then 50
  else 10

/-- `Collectible.__init__`: uncollected, with the value of its gem type. -/
def Collectible.init (col row : Int) (gem_type : String) : Collectible :=
  { grid_col := col, grid_row := row, gem_type := gem_type,
    value := gem_value gem_type, collected := false }

structure Challenge where
  title : String
  description : String
  target_col : Int
  target_row : Int
  reward : Int
  completed : Bool
deriving DecidableEq

/-- `Challenge.check_completion`: marks the challenge completed and reports
`True` exactly when the player stands on its target. -/
def Challenge.check_completion (c : Challenge) (player_col player_row : Int) :
    Challenge × Bool :=
  if player_col == c.target_col && player_row == c.target_row then
    ({ c with completed := true }, true)
  else (c, false)

/-- The `Game` fields the session logic reads or writes. -/
structure Game where
  obstacles : List Obstacle
  collectibles : List Collectible
  player : Player
  score : Int
  gems_collected : Int
  commands_executed : Int
  successful_moves : Int
  challenges : List Challenge
  current_challenge_idx : Nat
  challenges_completed : Int

/-- `Game._create_obstacles`. -/
def create_obstacles : List Obstacle :=
  [⟨2, 2, "rock"⟩, ⟨2, 3, "rock"⟩, ⟨3, 6, "crate"⟩, ⟨4, 6, "crate"⟩,
   ⟨7, 2, "bush"⟩, ⟨8, 2, "bush"⟩, ⟨9, 5, "rock"⟩, ⟨10, 5, "rock"⟩,
   ⟨6, 4, "crate"⟩]

/-- The gem layout of `Game._create_collectibles`. -/
def gem_positions : List (Int × Int × String) :=
  [(1, 1, "ruby"), (10, 1, "sapphire"), (0, 7, "emerald"), (11, 8, "gold"),
   (6, 7, "diamond"), (3, 3, "ruby"), (8, 5, "emerald")]

/-- `Game._create_collectibles`: the canonical gem layout, skipping cells
blocked by an obstacle or by the player start `(5, 4)`. -/
def create_collectibles (obstacles : List Obstacle) : List Collectible :=
  let blocked := obstacles.map (fun o => (o.grid_col, o.grid_row)) ++ [(5, 4)]
  (gem_positions.filter (fun g => !blocked.contains (g.1, g.2.1))).map
    (fun g => Collectible.init g.1 g.2.1 g.2.2)

/-- `Game._create_challenges`. -/
def create_challenges : List Challenge :=
  [⟨"First Steps", "Move to the ruby gem at (1, 1)!", 1, 1, 25, false⟩,
   ⟨"Adventure Awaits", "Find the diamond at (6, 7)!", 6, 7, 50, false⟩,
   ⟨"Explorer", "Reach the corner at (11, 8)!", 11, 8, 75, false⟩]

/-- `Game.__init__` (the session fields). -/
def Game.init : Game :=
  { obstacles := create_obstacles
    collectibles := create_collectibles create_obstacles
    player := Player.init PLAYER_START_COL PLAYER_START_ROW create_obstacles
    score := 0
    gems_collected := 0
    commands_executed := 0
    successful_moves := 0
    challenges := create_challenges
    current_challenge_idx := 0
    challenges_completed := 0 }

/-- The body of the `for gem in self.collectibles` loop of
`Game._check_collections`, with the gem list, collected counter and score
threaded through in loop order. -/
def collections_loop (pc pr : Int) :
    List Collectible → Int → Int → List Collectible × Int × Int
  | [], count, score => ([], count, score)
  | gem :: rest, count, score =>
    if !gem.collected && gem.grid_col == pc && gem.grid_row == pr then
      let r := collections_loop pc pr rest (count + 1) (score + gem.value)
      ({ gem with collected := true } :: r.1, r.2)
    else
      let r := collections_loop pc pr rest count score
      (gem :: r.1, r.2)

/-- `Game._check_collections`. -/
def Game.check_collections (g : Game) : Game :=
  let r := collections_loop g.player.grid_col g.player.grid_row
    g.collectibles g.gems_collected g.score
  { g with collectibles := r.1, gems_collected := r.2.1, score := r.2.2 }

/-- `Game._check_challenge`: only the current challenge is examined; on
completion the score grows by its reward and the pointer advances. -/
def Game.check_challenge (g : Game) : Game :=
  match g.challenges[g.current_challenge_idx]? with
  | none => g
  | some challenge =>
    if challenge.completed then g
    else
      let r := challenge.check_completion g.player.grid_col g.player.grid_row
      if r.2 then
        { g with
            challenges := g.challenges.set g.current_challenge_idx r.1
            challenges_completed := g.challenges_completed + 1
            score := g.score + challenge.reward
            current_challenge_idx := g.current_challenge_idx + 1 }
      else g

/-- `Game._reset_game` (the state part; console output is out of scope). -/
def Game.reset_game (g : Game) : Game :=
  { g with
      player := g.player.reset_position
      collectibles := create_collectibles g.obstacles
      challenges := g.challenges.map (fun c => { c with completed := false })
      current_challenge_idx := 0
      score := 0
      gems_collected := 0
      commands_executed := 0
      successful_moves := 0
      challenges_completed := 0 }

/-! ## The four directional move requests, as one indexed family -/

/-- The four public directional move requests of the actor. -/
inductive MoveDir
  | up
  | down
  | left
  | right
deriving DecidableEq

/-- The `(dx, dy)` each `move_*` method passes to `_try_move`. -/
def move_delta : MoveDir → Int × Int
  | .up => (0, -1)
  | .down => (0, 1)
  | .left => (-1, 0)
  | .right => (1, 0)

/-- Dispatch to `Player.move_up/move_down/move_left/move_right`. -/
def Player.move_in (p : Player) : MoveDir → Player × Bool
  | .up => p.move_up
  | .down => p.move_down
  | .left => p.move_left
  | .right => p.move_right

/-- Dispatch to `Hero.move_up/move_down/move_left/move_right`. -/
def Hero.move_in (p : Player) : MoveDir → Player × String
  | .up => Hero.move_up p
  | .down => Hero.move_down p
  | .left => Hero.move_left p
  | .right => Hero.move_right p

/-- The `"Can't move … - blocked!"` message of each direction. -/
def blocked_msg : MoveDir → String
  | .up => "Can't move up - blocked!"
  | .down => "Can't move down - blocked!"
  | .left => "Can't move left - blocked!"
  | .right => "Can't move right - blocked!"

/-! ## Helper lemmas on `_try_move` -/

theorem try_move_success (p : Player) (dx dy : Int) (dir : Direction)
    (hm : p.is_moving = false) (hs : p.is_spinning = false) (hd : p.is_dancing = false)
    (hb : within_bounds (p.grid_col + dx) (p.grid_row + dy) = true)
    (ho : p.is_blocked (p.grid_col + dx) (p.grid_row + dy) = false) :
    p.try_move dx dy dir =
      ({ p with
          grid_col := p.grid_col + dx
          grid_row := p.grid_row + dy
          target_x := grid_to_pixel_x (p.grid_col + dx)
          target_y := grid_to_pixel_y (p.grid_row + dy)
          direction := dir
          eye_direction := dir
          is_moving := true },
       true) := by
  simp [Player.try_move, hm, hs, hd, hb, ho]

theorem try_move_busy (p : Player) (dx dy : Int) (dir : Direction)
    (hbusy : p.is_moving = true ∨ p.is_spinning = true ∨ p.is_dancing = true) :
    p.try_move dx dy dir = (p, false) := by
  unfold Player.try_move
  rcases hbusy with h | h | h <;> simp [h]

theorem try_move_idle_fail (p : Player) (dx dy : Int) (dir : Direction)
    (hfail : within_bounds (p.grid_col + dx) (p.grid_row + dy) = false ∨
      p.is_blocked (p.grid_col + dx) (p.grid_row + dy) = true) :
    p.try_move dx dy dir = (p, false) := by
  unfold Player.try_move
  by_cases hm : (p.is_moving || p.is_spinning || p.is_dancing) = true
  · simp [hm]
  · rcases hfail with h | h
    · simp [hm, h]
    · cases hwb : within_bounds (p.grid_col + dx) (p.grid_row + dy) <;> simp [hm, h, hwb]

theorem grid_to_pixel_x_shift_ne (c k : Int) (hk : k ≠ 0) :
    grid_to_pixel_x c ≠ grid_to_pixel_x (c + k) := by
  unfold grid_to_pixel_x TILE_SIZE GAME_AREA_X
  intro h
  push_cast at h
  have hq : (k : ℚ) = 0 := by linarith
  exact hk (by exact_mod_cast hq)

theorem grid_to_pixel_y_shift_ne (r k : Int) (hk : k ≠ 0) :
    grid_to_pixel_y r ≠ grid_to_pixel_y (r + k) := by
  unfold grid_to_pixel_y TILE_SIZE GAME_AREA_Y
  intro h
  push_cast at h
  have hq : (k : ℚ) = 0 := by linarith
  exact hk (by exact_mod_cast hq)

/-! ## Concrete states used by witnesses and counterexamples -/

/-- An idle player at the start cell `(5, 4)` with the level's obstacles. -/
def player_idle : Player := Player.init 5 4 create_obstacles

/-- An idle player at the right edge `(11, 4)`: its right neighbour `(12, 4)`
is out of bounds. -/
def player_edge : Player := Player.init 11 4 create_obstacles

/-- An idle player at `(1, 2)`: its right neighbour `(2, 2)` holds a rock. -/
def player_before_rock : Player := Player.init 1 2 create_obstacles

/-- A player mid-spin. -/
def player_spinning : Player := { player_idle with is_spinning := true }

/-! ## C1: an idle move request toward a free in-bounds cell succeeds and
updates the logical grid cell immediately -/

/-- C1. From any idle actor state whose continuous position rests at the
centre of its cell, a directional move request toward an in-bounds,
unobstructed adjacent cell succeeds, the logical grid position equals the
target cell already at request time, and the continuous pixel position is
unchanged and has not yet reached the new target. -/
theorem move_request_updates_grid_immediately (p : Player) (d : MoveDir)
    (hm : p.is_moving = false) (hs : p.is_spinning = false) (hd : p.is_dancing = false)
    (hx : p.x = grid_to_pixel_x p.grid_col) (hy : p.y = grid_to_pixel_y p.grid_row)
    (hb : within_bounds (p.grid_col + (move_delta d).1) (p.grid_row + (move_delta d).2) = true)
    (ho : p.is_blocked (p.grid_col + (move_delta d).1) (p.grid_row + (move_delta d).2) = false) :
    (p.move_in d).2 = true ∧
    (p.move_in d).1.grid_col = p.grid_col + (move_delta d).1 ∧
    (p.move_in d).1.grid_row = p.grid_row + (move_delta d).2 ∧
    (p.move_in d).1.is_moving = true ∧
    (p.move_in d).1.x = p.x ∧
    (p.move_in d).1.y = p.y ∧
    ((p.move_in d).1.x ≠ (p.move_in d).1.target_x ∨
      (p.move_in d).1.y ≠ (p.move_in d).1.target_y) := by
  cases d
  case up =>
    simp only [move_delta] at hb ho
    have h := try_move_success p 0 (-1) .UP hm hs hd hb ho
    have hne : p.y ≠ grid_to_pixel_y (p.grid_row + (-1)) := by
      rw [hy]; exact grid_to_pixel_y_shift_ne p.grid_row (-1) (by decide)
    simp [Player.move_in, Player.move_up, h, move_delta, hne]
  case down =>
    simp only [move_delta] at hb ho
    have h := try_move_success p 0 1 .DOWN hm hs hd hb ho
    have hne : p.y ≠ grid_to_pixel_y (p.grid_row + 1) := by
      rw [hy]; exact grid_to_pixel_y_shift_ne p.grid_row 1 (by decide)
    simp [Player.move_in, Player.move_down, h, move_delta, hne]
  case left =>
    simp only [move_delta] at hb ho
    have h := try_move_success p (-1) 0 .LEFT hm hs hd hb ho
    have hne : p.x ≠ grid_to_pixel_x (p.grid_col + (-1)) := by
      rw [hx]; exact grid_to_pixel_x_shift_ne p.grid_col (-1) (by decide)
    simp [Player.move_in, Player.move_left, h, move_delta, hne]
  case right =>
    simp only [move_delta] at hb ho
    have h := try_move_success p 1 0 .RIGHT hm hs hd hb ho
    have hne : p.x ≠ grid_to_pixel_x (p.grid_col + 1) := by
      rw [hx]; exact grid_to_pixel_x_shift_ne p.grid_col 1 (by decide)
    simp [Player.move_in, Player.move_right, h, move_delta, hne]

/-- C1 witness: the idle player at `(5, 4)` moving up to the free cell
`(5, 3)`. -/
theorem move_request_updates_grid_immediately_witness :
    (player_idle.move_in MoveDir.up).2 = true ∧
    (player_idle.move_in MoveDir.up).1.grid_col =
      player_idle.grid_col + (move_delta MoveDir.up).1 ∧
    (player_idle.move_in MoveDir.up).1.grid_row =
      player_idle.grid_row + (move_delta MoveDir.up).2 ∧
    (player_idle.move_in MoveDir.up).1.is_moving = true ∧
    (player_idle.move_in MoveDir.up).1.x = player_idle.x ∧
    (player_idle.move_in MoveDir.up).1.y = player_idle.y ∧
    ((player_idle.move_in MoveDir.up).1.x ≠ (player_idle.move_in MoveDir.up).1.target_x ∨
      (player_idle.move_in MoveDir.up).1.y ≠ (player_idle.move_in MoveDir.up).1.target_y) :=
  move_request_updates_grid_immediately player_idle .up rfl rfl rfl rfl rfl
    (by decide) (by decide)

/-! ## C2: move requests while moving or performing are rejected as busy -/

/-- C2. A move request in any direction while the actor is moving, spinning
or dancing fails, leaves the whole actor state (grid position, targets,
action flags) unchanged, and is surfaced through the `Hero` wrapper with one
of the two busy messages, which differ from the blocked message. -/
theorem busy_move_request_rejected (p : Player) (d : MoveDir)
    (hbusy : p.is_moving = true ∨ p.is_spinning = true ∨ p.is_dancing = true) :
    p.move_in d = (p, false) ∧
    Hero.move_in p d =
      (p, if p.is_moving then "Wait! Still moving..."
          else "Wait! Hero is busy performing...") ∧
    (Hero.move_in p d).2 ≠ blocked_msg d := by
  have hmv : ∀ dx dy dir, p.try_move dx dy dir = (p, false) :=
    fun dx dy dir => try_move_busy p dx dy dir hbusy
  have hperf : p.is_moving = false → (p.is_spinning || p.is_dancing) = true := by
    intro hm
    rcases hbusy with h | h | h
    · rw [hm] at h; cases h
    · simp [h]
    · simp [h]
  cases d <;>
    · refine ⟨by simp [Player.move_in, Player.move_up, Player.move_down,
        Player.move_left, Player.move_right, hmv], ?_, ?_⟩ <;>
      · cases hm : p.is_moving
        · simp [Hero.move_in, Hero.move_up, Hero.move_down, Hero.move_left,
            Hero.move_right, Player.move_up, Player.move_down, Player.move_left,
            Player.move_right, hmv, hm, hperf hm, blocked_msg]
        · simp [Hero.move_in, Hero.move_up, Hero.move_down, Hero.move_left,
            Hero.move_right, Player.move_up, Player.move_down, Player.move_left,
            Player.move_right, hmv, hm, blocked_msg]

/-- C2 witness: a spinning player at `(5, 4)` asked to move right. -/
theorem busy_move_request_rejected_witness :
    player_spinning.move_in MoveDir.right = (player_spinning, false) ∧
    Hero.move_in player_spinning MoveDir.right =
      (player_spinning,
       if player_spinning.is_moving then "Wait! Still moving..."
       else "Wait! Hero is busy performing...") ∧
    (Hero.move_in player_spinning MoveDir.right).2 ≠ blocked_msg MoveDir.right :=
  busy_move_request_rejected player_spinning .right (Or.inr (Or.inl rfl))

/-! ## C3: idle move failures do not mutate state, but out-of-bounds and
obstacle-blocked targets are NOT distinguished -/

/-- C3 counterexample. The claim says the failure reason distinguishes
`OutOfBounds` from `Blocked`. It does not: `_try_move` reports both as the
bare boolean `False`, and the `Hero` wrapper then surfaces the identical
`"Can't move right - blocked!"` message for the idle player at `(11, 4)`
(whose right neighbour `(12, 4)` is out of bounds) and for the idle player at
`(1, 2)` (whose right neighbour `(2, 2)` holds a rock). -/
theorem move_failure_reasons_not_distinguished :
    (Player.move_right player_edge).2 = false ∧
    (Player.move_right player_before_rock).2 = false ∧
    (Hero.move_right player_edge).2 = "Can't move right - blocked!" ∧
    (Hero.move_right player_before_rock).2 = "Can't move right - blocked!" ∧
    (Hero.move_right player_edge).2 = (Hero.move_right player_before_rock).2 := by
  refine ⟨by decide, by decide, by decide, by decide, by decide⟩

/-- C3 amended. An idle move request whose target cell is out of bounds or
occupied by an obstacle fails and mutates nothing, and the failure is
surfaced with the single blocked classification — the same `"Can't move … -
blocked!"` message for both failure causes. -/
theorem idle_move_failure_no_mutation (p : Player) (d : MoveDir)
    (hm : p.is_moving = false) (hs : p.is_spinning = false) (hd : p.is_dancing = false)
    (hfail : within_bounds (p.grid_col + (move_delta d).1) (p.grid_row + (move_delta d).2) = false ∨
      p.is_blocked (p.grid_col + (move_delta d).1) (p.grid_row + (move_delta d).2) = true) :
    p.move_in d = (p, false) ∧
    Hero.move_in p d = (p, blocked_msg d) := by
  cases d <;>
    · simp only [move_delta] at hfail
      refine ⟨by simp [Player.move_in, Player.move_up, Player.move_down,
          Player.move_left, Player.move_right, try_move_idle_fail p _ _ _ hfail], ?_⟩
      simp [Hero.move_in, Hero.move_up, Hero.move_down, Hero.move_left,
        Hero.move_right, Player.move_up, Player.move_down, Player.move_left,
        Player.move_right, try_move_idle_fail p _ _ _ hfail, hm, hs, hd, blocked_msg]

/-- C3 amended witness: the idle player at the right edge (out of bounds) and
the one before the rock (obstacle) both fail with the blocked message. -/
theorem idle_move_failure_no_mutation_witness :
    (player_edge.move_in MoveDir.right = (player_edge, false) ∧
      Hero.move_in player_edge MoveDir.right = (player_edge, blocked_msg MoveDir.right)) ∧
    (player_before_rock.move_in MoveDir.right = (player_before_rock, false) ∧
      Hero.move_in player_before_rock MoveDir.right =
        (player_before_rock, blocked_msg MoveDir.right)) :=
  ⟨idle_move_failure_no_mutation player_edge .right rfl rfl rfl (Or.inl (by decide)),
   idle_move_failure_no_mutation player_before_rock .right rfl rfl rfl (Or.inr (by decide))⟩

/-! ## C4: bare (non-literal) arguments are handed to `eval` -/

/-- C4. The claim says a non-literal argument is classified as a parse
failure and never evaluated. The code instead hands any bare argument to the
Python `eval` builtin: with an `eval` that computes `1+1 = 2` (as Python's
does), `hero.say(1+1)` succeeds and the hero speaks the evaluated result —
the argument was executed as an expression, not rejected. -/
theorem bare_argument_is_evaluated_not_rejected (ev : String → Option PyObj) (p : Player)
    (hev : ev "1+1" = some (PyObj.int 2)) :
    submit_command ev p "hero.say(1+1)" = (p, CmdOutcome.success "Hero says: \"2\"") := by
  simp only [submit_command, execute_hero_command,
    show pyStrip "hero.say(1+1)" = "hero.say(1+1)" from rfl,
    show pyIsEmpty "hero.say(1+1)" = false from rfl,
    show pyLower "hero.say(1+1)" = "hero.say(1+1)" from rfl,
    show ("hero.say(1+1)" = "help") = False from by simp,
    show ("hero.say(1+1)" = "clear") = False from by simp,
    show ("hero.say(1+1)" = "hint") = False from by simp,
    show pyStartsWith "hero.say(1+1)" "hero." = true from rfl,
    show match_hero_call "hero.say(1+1)" = some ("say", "1+1") from rfl,
    show pyStrip "1+1" = "1+1" from rfl,
    show pyIsEmpty "1+1" = false from rfl,
    show pyStartsWith "1+1" "\"" = false from rfl,
    show pyStartsWith "1+1" "'" = false from rfl,
    (by decide : ("say" : String) ∈ valid_methods_extended),
    hev, Hero.call1, Hero.say, py_str,
    show toString (2 : Int) = "2" from rfl,
    Bool.false_eq_true, if_false, if_true]
  rfl

/-- A Python `eval` that can do the arithmetic of the failing input. -/
def ev_arith : String → Option PyObj :=
  fun s => if s = "1+1" then some (PyObj.int 2) else none

/-- C4 witness: the failing input `hero.say(1+1)` under `ev_arith`. -/
theorem bare_argument_is_evaluated_not_rejected_witness :
    submit_command ev_arith player_idle "hero.say(1+1)" =
      (player_idle, CmdOutcome.success "Hero says: \"2\"") :=
  bare_argument_is_evaluated_not_rejected ev_arith player_idle (by decide)

/-! ## C5: known misspellings get an unknown-method error with a
did-you-mean suggestion -/

/-- C5. For every key of the misspelling table, submitting `hero.<key>()`
is classified as an unknown-method failure, the player is untouched, and the
educational output is the did-you-mean suggestion naming the canonical
method — for `moveright`, the suggestion `move_right`. -/
theorem misspelled_method_gets_suggestion (ev : String → Option PyObj) (p : Player)
    (ks : String × String) (h : ks ∈ METHOD_SUGGESTIONS) :
    submit_command ev p ("hero." ++ ks.1 ++ "()") =
      (p, CmdOutcome.eduError "unknown_method" (EduHint.didYouMean ks.2)) := by
  fin_cases h <;> rfl

/-- C5 witness: `hero.moveright()` yields the unknown-method classification
with the suggestion `move_right`. -/
theorem misspelled_method_gets_suggestion_witness :
    submit_command (fun _ => none) player_idle ("hero." ++ "moveright" ++ "()") =
      (player_idle, CmdOutcome.eduError "unknown_method" (EduHint.didYouMean "move_right")) :=
  misspelled_method_gets_suggestion (fun _ => none) player_idle ("moveright", "move_right")
    (by decide)

/-! ## C6: commands without the `hero.` prefix -/

/-- C6 counterexample. The claim says every non-keyword command without the
`hero.` prefix produces the namespace-specific teaching hint. `right()` is
such a command, yet the educational output is the did-you-mean suggestion
(`hero.move_right()`), because `add_educational_error` consults the
misspelling table before the error type — not the namespace hint. -/
theorem missing_namespace_hint_counterexample :
    submit_command (fun _ => none) player_idle "right()" =
      (player_idle, CmdOutcome.eduError "name" (EduHint.didYouMean "move_right")) ∧
    EduHint.didYouMean "move_right" ≠ EduHint.nameHint :=
  ⟨rfl, by decide⟩

/-- C6 amended. Every non-empty submitted command that is not a reserved
keyword and does not start with `hero.` is classified as a name error (the
missing-namespace failure, a class of its own distinct from syntax errors),
with the player untouched; the namespace-specific teaching hint is produced
exactly when the command with namespace/parens stripped is not in the
misspelling table — otherwise the did-you-mean suggestion replaces it. -/
theorem missing_namespace_classified (ev : String → Option PyObj) (p : Player) (raw : String)
    (hne : pyIsEmpty (pyStrip raw) = false)
    (h1 : pyLower (pyStrip raw) ≠ "help")
    (h2 : pyLower (pyStrip raw) ≠ "clear")
    (h3 : pyLower (pyStrip raw) ≠ "hint")
    (hns : pyStartsWith (pyStrip raw) "hero." = false) :
    submit_command ev p raw =
      (p, CmdOutcome.eduError "name" (edu_hint (pyStrip raw) "name")) ∧
    (lookup_suggestion (strip_cmd (pyStrip raw)) = none →
      edu_hint (pyStrip raw) "name" = EduHint.nameHint) ∧
    (∀ s, lookup_suggestion (strip_cmd (pyStrip raw)) = some s →
      edu_hint (pyStrip raw) "name" = EduHint.didYouMean s) := by
  refine ⟨?_, ?_, ?_⟩
  · simp only [submit_command, execute_hero_command, hne, h1, h2, h3, hns,
      Bool.false_eq_true, Bool.not_false, if_false, if_true, ite_false, ite_true,
      err_type]
  · intro h
    simp [edu_hint, h]
  · intro s h
    simp [edu_hint, h]

/-- C6 amended witness: `move_right()` (no namespace, not in the misspelling
table) is classified as a name error and gets the namespace teaching hint. -/
theorem missing_namespace_classified_witness :
    (submit_command (fun _ => none) player_idle "move_right()" =
      (player_idle, CmdOutcome.eduError "name" (edu_hint (pyStrip "move_right()") "name")) ∧
    (lookup_suggestion (strip_cmd (pyStrip "move_right()")) = none →
      edu_hint (pyStrip "move_right()") "name" = EduHint.nameHint) ∧
    (∀ s, lookup_suggestion (strip_cmd (pyStrip "move_right()")) = some s →
      edu_hint (pyStrip "move_right()") "name" = EduHint.didYouMean s)) ∧
    lookup_suggestion (strip_cmd (pyStrip "move_right()")) = none :=
  ⟨missing_namespace_classified (fun _ => none) player_idle "move_right()"
      (by decide) (by decide) (by decide) (by decide) (by decide),
   by decide⟩

/-! ## C10: the non-movement commands never check the busy flags -/

/-- C10. In every actor state — the busy flags are never read — `say`,
`jump`, `attack`, `defend` and `collect` return their success message and
leave the player record (grid position, pixel position, action flags)
entirely unchanged; through the interpreter each yields a success outcome;
and none of their messages is one of the two busy-rejection messages. -/
theorem nonmovement_commands_always_succeed (ev : String → Option PyObj)
    (p : Player) (a : PyObj) :
    (Hero.say p a = (p, "Hero says: \"" ++ py_str a ++ "\"") ∧
     Hero.jump p = (p, "Jump! ðŸ¦˜ (Visual coming soon...)") ∧
     Hero.attack p = (p, "Attack! âš”ï¸ (Combat coming soon...)") ∧
     Hero.defend p = (p, "Defend! ðŸ›¡ï¸ (Combat coming soon...)") ∧
     Hero.collect p = (p, "Looking for items... (Use auto-collect by walking!)")) ∧
    (submit_command ev p "hero.say()" =
       (p, CmdOutcome.success "Hero says: \"Hello!\"") ∧
     submit_command ev p "hero.say('hi')" =
       (p, CmdOutcome.success "Hero says: \"hi\"") ∧
     submit_command ev p "hero.jump()" =
       (p, CmdOutcome.success "Jump! ðŸ¦˜ (Visual coming soon...)") ∧
     submit_command ev p "hero.attack()" =
       (p, CmdOutcome.success "Attack! âš”ï¸ (Combat coming soon...)") ∧
     submit_command ev p "hero.defend()" =
       (p, CmdOutcome.success "Defend! ðŸ›¡ï¸ (Combat coming soon...)") ∧
     submit_command ev p "hero.collect()" =
       (p, CmdOutcome.success "Looking for items... (Use auto-collect by walking!)")) ∧
    ((Hero.say p a).2 ≠ "Wait! Still moving..." ∧
     (Hero.say p a).2 ≠ "Wait! Hero is busy performing..." ∧
     (Hero.jump p).2 ≠ "Wait! Still moving..." ∧
     (Hero.jump p).2 ≠ "Wait! Hero is busy performing..." ∧
     (Hero.attack p).2 ≠ "Wait! Still moving..." ∧
     (Hero.attack p).2 ≠ "Wait! Hero is busy performing..." ∧
     (Hero.defend p).2 ≠ "Wait! Still moving..." ∧
     (Hero.defend p).2 ≠ "Wait! Hero is busy performing..." ∧
     (Hero.collect p).2 ≠ "Wait! Still moving..." ∧
     (Hero.collect p).2 ≠ "Wait! Hero is busy performing...") := by
  have hsay1 : (Hero.say p a).2 ≠ "Wait! Still moving..." := by
    intro h
    have h1 : some 'H' = some 'W' := congrArg (fun s : String => s.data.head?) h
    exact (by decide : ('H' : Char) ≠ 'W') (Option.some.inj h1)
  have hsay2 : (Hero.say p a).2 ≠ "Wait! Hero is busy performing..." := by
    intro h
    have h1 : some 'H' = some 'W' := congrArg (fun s : String => s.data.head?) h
    exact (by decide : ('H' : Char) ≠ 'W') (Option.some.inj h1)
  exact ⟨⟨rfl, rfl, rfl, rfl, rfl⟩,
    ⟨rfl, rfl, rfl, rfl, rfl, rfl⟩,
    hsay1, hsay2,
    (by decide : "Jump! ðŸ¦˜ (Visual coming soon...)" ≠ "Wait! Still moving..."),
    (by decide : "Jump! ðŸ¦˜ (Visual coming soon...)" ≠ "Wait! Hero is busy performing..."),
    (by decide : "Attack! âš”ï¸ (Combat coming soon...)" ≠ "Wait! Still moving..."),
    (by decide : "Attack! âš”ï¸ (Combat coming soon...)" ≠ "Wait! Hero is busy performing..."),
    (by decide : "Defend! ðŸ›¡ï¸ (Combat coming soon...)" ≠ "Wait! Still moving..."),
    (by decide : "Defend! ðŸ›¡ï¸ (Combat coming soon...)" ≠ "Wait! Hero is busy performing..."),
    (by decide : "Looking for items... (Use auto-collect by walking!)" ≠ "Wait! Still moving..."),
    (by decide : "Looking for items... (Use auto-collect by walking!)" ≠ "Wait! Hero is busy performing...")⟩

/-! ## C7: collectible collection is idempotent -/

/-- The collection condition of `_check_collections` for one gem: uncollected
and under the player. -/
def gem_hit (pc pr : Int) (gem : Collectible) : Bool :=
  !gem.collected && gem.grid_col == pc && gem.grid_row == pr

/-- What one loop iteration of `_check_collections` does to one gem. -/
def gem_mark (pc pr : Int) (gem : Collectible) : Collectible :=
  if gem_hit pc pr gem then { gem with collected := true } else gem

theorem collections_loop_eq (pc pr : Int) (gems : List Collectible) (count score : Int) :
    collections_loop pc pr gems count score =
      (gems.map (gem_mark pc pr),
       count + ((gems.filter (gem_hit pc pr)).length : Int),
       score + ((gems.filter (gem_hit pc pr)).map Collectible.value).sum) := by
  induction gems generalizing count score with
  | nil => simp [collections_loop]
  | cons gem rest ih =>
    have hcond : (!gem.collected && gem.grid_col == pc && gem.grid_row == pr) =
        gem_hit pc pr gem := rfl
    cases h : gem_hit pc pr gem
    · simp only [collections_loop, hcond, h, Bool.false_eq_true, if_false, ih,
        List.filter_cons, List.map_cons, Prod.mk.injEq]
      simp [gem_mark, h]
    · simp only [collections_loop, hcond, h, if_true, ih, List.filter_cons,
        List.map_cons, List.length_cons, Prod.mk.injEq, gem_mark]
      refine ⟨trivial, ?_, ?_⟩
      · push_cast; ring
      · simp only [List.map_cons, List.sum_cons]; ring

theorem check_collections_eq (g : Game) :
    g.check_collections =
      { g with
          collectibles := g.collectibles.map (gem_mark g.player.grid_col g.player.grid_row)
          gems_collected := g.gems_collected +
            ((g.collectibles.filter (gem_hit g.player.grid_col g.player.grid_row)).length : Int)
          score := g.score +
            ((g.collectibles.filter (gem_hit g.player.grid_col g.player.grid_row)).map
              Collectible.value).sum } := by
  unfold Game.check_collections
  rw [collections_loop_eq]

theorem gem_hit_mark_false (pc pr : Int) (gem : Collectible) :
    gem_hit pc pr (gem_mark pc pr gem) = false := by
  unfold gem_mark
  cases h : gem_hit pc pr gem
  · simp [gem_mark, h]
  · simp [gem_hit]

theorem filter_hit_map_mark (pc pr : Int) (l : List Collectible) :
    (l.map (gem_mark pc pr)).filter (gem_hit pc pr) = [] := by
  induction l with
  | nil => rfl
  | cons gem rest ih => simp [List.filter_cons, gem_hit_mark_false, ih]

theorem gem_mark_idem (pc pr : Int) (gem : Collectible) :
    gem_mark pc pr (gem_mark pc pr gem) = gem_mark pc pr gem := by
  unfold gem_mark
  cases h : gem_hit pc pr gem
  · simp [h]
  · have h2 : gem_hit pc pr { gem with collected := true } = false := by
      simp [gem_hit]
    simp [h, h2]

theorem gem_hit_false_of_safe (pc pr : Int) (gem : Collectible)
    (h : gem.grid_col = pc → gem.grid_row = pr → gem.collected = true) :
    gem_hit pc pr gem = false := by
  unfold gem_hit
  by_cases h1 : gem.grid_col = pc
  · by_cases h2 : gem.grid_row = pr
    · simp [h1, h2, h h1 h2]
    · simp [h2]
  · simp [h1]

/-- C7. Collection is idempotent and per-gem at-most-once: running
`_check_collections` twice equals running it once; a collected gem is never
touched again; an uncollected gem under the player transitions to collected,
with the score and count growing by exactly the hit gems' values and number;
and if every gem under the player is already collected (as after any earlier
visit), the tick changes nothing — revisiting never re-awards. -/
theorem collection_idempotent (g : Game) :
    g.check_collections.check_collections = g.check_collections ∧
    (∀ (j : Nat) (gem : Collectible), g.collectibles[j]? = some gem → gem.collected = true →
      g.check_collections.collectibles[j]? = some gem) ∧
    (∀ (j : Nat) (gem : Collectible), g.collectibles[j]? = some gem → gem.collected = false →
      gem.grid_col = g.player.grid_col → gem.grid_row = g.player.grid_row →
      g.check_collections.collectibles[j]? = some { gem with collected := true }) ∧
    g.check_collections.score = g.score +
      ((g.collectibles.filter (gem_hit g.player.grid_col g.player.grid_row)).map
        Collectible.value).sum ∧
    g.check_collections.gems_collected = g.gems_collected +
      ((g.collectibles.filter (gem_hit g.player.grid_col g.player.grid_row)).length : Int) ∧
    ((∀ gem ∈ g.collectibles, gem.grid_col = g.player.grid_col →
        gem.grid_row = g.player.grid_row → gem.collected = true) →
      g.check_collections = g) := by
  refine ⟨?_, ?_, ?_, ?_, ?_, ?_⟩
  · rw [check_collections_eq, check_collections_eq]
    simp [filter_hit_map_mark, gem_mark_idem]
  · intro j gem hj hc
    rw [check_collections_eq]
    show (g.collectibles.map (gem_mark g.player.grid_col g.player.grid_row))[j]? = some gem
    rw [List.getElem?_map, hj]
    simp [gem_mark, gem_hit, hc]
  · intro j gem hj hc h1 h2
    rw [check_collections_eq]
    show (g.collectibles.map (gem_mark g.player.grid_col g.player.grid_row))[j]? =
      some { gem with collected := true }
    rw [List.getElem?_map, hj]
    simp [gem_mark, gem_hit, hc, h1, h2]
  · rw [check_collections_eq]
  · rw [check_collections_eq]
  · intro hall
    have h1 : g.collectibles.filter (gem_hit g.player.grid_col g.player.grid_row) = [] := by
      rw [List.filter_eq_nil_iff]
      intro gem hg
      simp [gem_hit_false_of_safe _ _ gem (fun ha hb => hall gem hg ha hb)]
    have h2 : g.collectibles.map (gem_mark g.player.grid_col g.player.grid_row) =
        g.collectibles := by
      have hpt : ∀ gem ∈ g.collectibles,
          gem_mark g.player.grid_col g.player.grid_row gem = id gem := by
        intro gem hg
        unfold gem_mark
        simp [gem_hit_false_of_safe _ _ gem (fun ha hb => hall gem hg ha hb)]
      rw [List.map_congr_left hpt, List.map_id]
    rw [check_collections_eq, h1, h2]
    simp

/-- C7 witness: the double-tick equation at the initial session state. -/
theorem collection_idempotent_witness :
    Game.init.check_collections.check_collections = Game.init.check_collections :=
  (collection_idempotent Game.init).1

/-! ## C9: reset restores the canonical fresh session -/

/-- C9. From any prior session state, reset zeroes the score and every
counter, marks every challenge incomplete (keeping the challenge list
itself), resets the current-challenge pointer to 0, recreates the
collectibles at their canonical positions all uncollected, puts the actor
back on the start cell `(5, 4)` idle (no moving/spinning/dancing, pixel
position at rest on the cell centre), and leaves the obstacle layout — both
the session's list and the player's reference — untouched. -/
theorem reset_restores_initial_session (g : Game) :
    g.reset_game.score = 0 ∧
    g.reset_game.gems_collected = 0 ∧
    g.reset_game.commands_executed = 0 ∧
    g.reset_game.successful_moves = 0 ∧
    g.reset_game.challenges_completed = 0 ∧
    g.reset_game.current_challenge_idx = 0 ∧
    g.reset_game.challenges = g.challenges.map (fun c => { c with completed := false }) ∧
    (∀ c ∈ g.reset_game.challenges, c.completed = false) ∧
    g.reset_game.collectibles = create_collectibles g.obstacles ∧
    (∀ gem ∈ g.reset_game.collectibles, gem.collected = false) ∧
    g.reset_game.player.grid_col = PLAYER_START_COL ∧
    g.reset_game.player.grid_row = PLAYER_START_ROW ∧
    g.reset_game.player.is_moving = false ∧
    g.reset_game.player.is_spinning = false ∧
    g.reset_game.player.is_dancing = false ∧
    g.reset_game.player.x = grid_to_pixel_x PLAYER_START_COL ∧
    g.reset_game.player.y = grid_to_pixel_y PLAYER_START_ROW ∧
    g.reset_game.player.x = g.reset_game.player.target_x ∧
    g.reset_game.player.y = g.reset_game.player.target_y ∧
    g.reset_game.obstacles = g.obstacles ∧
    g.reset_game.player.obstacles = g.player.obstacles := by
  refine ⟨rfl, rfl, rfl, rfl, rfl, rfl, rfl, ?_, rfl, ?_, rfl, rfl, rfl, rfl, rfl,
    rfl, rfl, rfl, rfl, rfl, rfl⟩
  · intro c hc
    simp only [Game.reset_game, List.mem_map] at hc
    obtain ⟨c0, _, rfl⟩ := hc
    rfl
  · intro gem hg
    simp only [Game.reset_game, create_collectibles, List.mem_map] at hg
    obtain ⟨g0, _, rfl⟩ := hg
    rfl

/-- C9 witness: reset after a collection-and-challenge tick at the initial
state still lands on score 0 with the pointer at 0. -/
theorem reset_restores_initial_session_witness :
    Game.init.check_collections.check_challenge.reset_game.score = 0 ∧
    Game.init.check_collections.check_challenge.reset_game.current_challenge_idx = 0 :=
  ⟨(reset_restores_initial_session Game.init.check_collections.check_challenge).1,
   (reset_restores_initial_session Game.init.check_collections.check_challenge).2.2.2.2.2.1⟩

/-! ## C8: challenge progression is monotonic and ordered -/

/-- The challenge subsystem invariant: the pointer never passes the end of
the list, and a challenge is completed exactly when its index lies below the
pointer — so the current challenge (when one remains) is the lowest-indexed
incomplete one. -/
def challenges_ordered (g : Game) : Prop :=
  g.current_challenge_idx ≤ g.challenges.length ∧
  ∀ (j : Nat) (c : Challenge), g.challenges[j]? = some c →
    (c.completed = true ↔ j < g.current_challenge_idx)

/-- An over-approximation of the session states the game loop reaches:
the initial state, any step that leaves the challenge list and pointer
untouched (movement, collection, command handling), the challenge check of a
tick, and reset. Every state a real trace reaches is covered. -/
inductive SessionReach : Game → Prop
  | init : SessionReach Game.init
  | frame (g g2 : Game) (h : SessionReach g)
      (hch : g2.challenges = g.challenges)
      (hidx : g2.current_challenge_idx = g.current_challenge_idx) : SessionReach g2
  | tick (g : Game) (h : SessionReach g) : SessionReach g.check_challenge
  | reset (g : Game) (h : SessionReach g) : SessionReach g.reset_game

theorem cc_none (g : Game) (hc : g.challenges[g.current_challenge_idx]? = none) :
    g.check_challenge = g := by
  simp only [Game.check_challenge, List.get?_eq_getElem?, hc]

theorem cc_completed (g : Game) (c : Challenge)
    (hc : g.challenges[g.current_challenge_idx]? = some c)
    (hcomp : c.completed = true) : g.check_challenge = g := by
  simp only [Game.check_challenge, List.get?_eq_getElem?, hc, hcomp, if_true]

theorem cc_miss (g : Game) (c : Challenge)
    (hc : g.challenges[g.current_challenge_idx]? = some c)
    (hcomp : c.completed = false)
    (hpos : (g.player.grid_col == c.target_col && g.player.grid_row == c.target_row) = false) :
    g.check_challenge = g := by
  simp only [Game.check_challenge, List.get?_eq_getElem?, hc, hcomp,
    Challenge.check_completion, hpos, Bool.false_eq_true, if_false]

theorem cc_hit (g : Game) (c : Challenge)
    (hc : g.challenges[g.current_challenge_idx]? = some c)
    (hcomp : c.completed = false)
    (hpos : (g.player.grid_col == c.target_col && g.player.grid_row == c.target_row) = true) :
    g.check_challenge =
      { g with
          challenges := g.challenges.set g.current_challenge_idx { c with completed := true }
          challenges_completed := g.challenges_completed + 1
          score := g.score + c.reward
          current_challenge_idx := g.current_challenge_idx + 1 } := by
  simp only [Game.check_challenge, List.get?_eq_getElem?, hc, hcomp,
    Challenge.check_completion, hpos, Bool.false_eq_true, if_false, if_true]

theorem bool_eq_false_of_ne_true {b : Bool} (h : ¬b = true) : b = false := by
  cases b
  · rfl
  · exact absurd rfl h

theorem check_challenge_ordered (g : Game) (ho : challenges_ordered g) :
    challenges_ordered g.check_challenge := by
  obtain ⟨hlen, hinv⟩ := ho
  cases hc : g.challenges[g.current_challenge_idx]? with
  | none => rw [cc_none g hc]; exact ⟨hlen, hinv⟩
  | some c =>
    by_cases hcomp : c.completed = true
    · rw [cc_completed g c hc hcomp]; exact ⟨hlen, hinv⟩
    · have hcompf : c.completed = false := bool_eq_false_of_ne_true hcomp
      by_cases hpos : (g.player.grid_col == c.target_col && g.player.grid_row == c.target_row) = true
      · have hlt : g.current_challenge_idx < g.challenges.length := by
          rcases List.getElem?_eq_some.mp hc with ⟨hh, _⟩; exact hh
        rw [cc_hit g c hc hcompf hpos]
        constructor
        · simpa using hlt
        · intro j c2 hj
          show c2.completed = true ↔ j < g.current_challenge_idx + 1
          by_cases hji : j = g.current_challenge_idx
          · subst hji
            rw [List.getElem?_set, if_pos rfl, if_pos hlt] at hj
            have hc2 : c2 = { c with completed := true } := by
              injection hj with hj2; exact hj2.symm
            subst hc2
            simp
          · rw [List.getElem?_set_ne (fun hh => hji hh.symm)] at hj
            have h0 := hinv j c2 hj
            constructor
            · intro hcc; have := h0.mp hcc; omega
            · intro hjlt
              exact h0.mpr (by omega)
      · have hposf := bool_eq_false_of_ne_true hpos
        rw [cc_miss g c hc hcompf hposf]; exact ⟨hlen, hinv⟩

theorem check_challenge_frame_ne (g : Game) (j : Nat)
    (hj : j ≠ g.current_challenge_idx) :
    g.check_challenge.challenges[j]? = g.challenges[j]? := by
  cases hc : g.challenges[g.current_challenge_idx]? with
  | none => rw [cc_none g hc]
  | some c =>
    by_cases hcomp : c.completed = true
    · rw [cc_completed g c hc hcomp]
    · have hcompf : c.completed = false := bool_eq_false_of_ne_true hcomp
      by_cases hpos : (g.player.grid_col == c.target_col && g.player.grid_row == c.target_row) = true
      · rw [cc_hit g c hc hcompf hpos]
        exact List.getElem?_set_ne (fun hh => hj hh.symm)
      · rw [cc_miss g c hc hcompf (bool_eq_false_of_ne_true hpos)]

theorem check_challenge_mono (g : Game) (j : Nat) (c c2 : Challenge)
    (hc1 : g.challenges[j]? = some c)
    (hc2 : g.check_challenge.challenges[j]? = some c2)
    (hcomp : c.completed = true) : c2.completed = true := by
  by_cases hji : j = g.current_challenge_idx
  · subst hji
    rw [cc_completed g c hc1 hcomp, hc1] at hc2
    injection hc2 with h2
    rw [← h2]; exact hcomp
  · rw [check_challenge_frame_ne g j hji, hc1] at hc2
    injection hc2 with h2
    rw [← h2]; exact hcomp

theorem challenges_ordered_of_fresh (g : Game)
    (hidx : g.current_challenge_idx = 0)
    (hall : ∀ c ∈ g.challenges, c.completed = false) : challenges_ordered g := by
  constructor
  · rw [hidx]; exact Nat.zero_le _
  · intro j c hj
    rw [hidx]
    simp [hall c (List.getElem?_mem hj)]

theorem session_ordered (g : Game) (h : SessionReach g) : challenges_ordered g := by
  induction h with
  | init =>
    exact challenges_ordered_of_fresh _ rfl (by decide)
  | frame g g2 _ hch hidx ih =>
    refine ⟨?_, ?_⟩
    · rw [hidx, hch]; exact ih.1
    · intro j c hj
      rw [hch] at hj
      rw [hidx]
      exact ih.2 j c hj
  | tick g _ ih => exact check_challenge_ordered g ih
  | reset g _ _ =>
    refine challenges_ordered_of_fresh _ rfl ?_
    intro c hc
    simp only [Game.reset_game, List.mem_map] at hc
    obtain ⟨c0, _, rfl⟩ := hc
    rfl

/-- C8. At every reachable session state the challenge subsystem is ordered
(completed exactly below the current pointer, so the current challenge is the
lowest-indexed incomplete one, and index `i + 1` becomes current only once
index `i` is completed); the challenge check never touches any challenge
other than the current one (standing on a future challenge's target changes
nothing for it); a completed challenge stays completed across the check; and
when the current challenge is incomplete and the actor is not on its target,
the check leaves the whole session state — score included — unchanged, so no
reward is awarded. -/
theorem challenge_progress_monotonic :
    (∀ g : Game, SessionReach g → challenges_ordered g) ∧
    (∀ (g : Game) (j : Nat), j ≠ g.current_challenge_idx →
      g.check_challenge.challenges[j]? = g.challenges[j]?) ∧
    (∀ (g : Game) (j : Nat) (c c2 : Challenge), g.challenges[j]? = some c →
      g.check_challenge.challenges[j]? = some c2 → c.completed = true →
      c2.completed = true) ∧
    (∀ (g : Game) (c : Challenge),
      g.challenges[g.current_challenge_idx]? = some c → c.completed = false →
      (g.player.grid_col == c.target_col && g.player.grid_row == c.target_row) = false →
      g.check_challenge = g) :=
  ⟨session_ordered, check_challenge_frame_ne, check_challenge_mono, cc_miss⟩

/-- C8 witness: the invariant after one tick from the initial state, and the
frame property at the future challenge index 1. -/
theorem challenge_progress_monotonic_witness :
    challenges_ordered Game.init.check_challenge ∧
    Game.init.check_challenge.challenges[1]? = Game.init.challenges[1]? :=
  ⟨challenge_progress_monotonic.1 _ (SessionReach.tick _ SessionReach.init),
   challenge_progress_monotonic.2.1 Game.init 1 (by decide)⟩
